import Mathlib

/-!
Shallow embedding of the FSRS v4 scheduling engine of `learning-tracker`
(`fsrs.js`, imported by `index.js`).

Modelling conventions:
- JS numbers are modelled as real numbers (`ℝ`); `Math.exp` is `Real.exp`
  and `Math.pow` with a real exponent is `Real.rpow` (`x ^ y`).
- Timestamps (`Date` / ISO strings) are modelled as real-valued epoch
  milliseconds; `Date` arithmetic in the source is millisecond arithmetic
  and the ISO round-trip is lossless at millisecond precision.
- Nullable fields (`stability`, `difficulty`, `due`, `last_reviewed`) are
  `Option ℝ`.  Where the source lets a `null` flow into arithmetic, JS
  coerces `null` to `0`; this is modelled with `Option.getD 0`.
- The effectful context of `processReview` and `calculatePriority` is made
  explicit: the ambient clock reading `new Date()` becomes an explicit
  argument `now`, and the contents of `~/Claude/fsrs_config.json` consulted
  by `loadConfig` become an explicit argument `fileConfig : Option Config`
  (`none` = the file does not exist, in which case the source writes and
  returns `DEFAULT_CONFIG`).
-/

noncomputable section

/-- The four FSRS scheduling states; the source uses the strings
`"new"`, `"learning"`, `"review"`, `"relearning"`. -/
inductive StateTag where
  | new
  | learning
  | review
  | relearning
deriving DecidableEq

/-- Per-topic FSRS scheduling state (the `fsrs` object of a topic record). -/
structure FsrsState where
  state : StateTag
  stability : Option ℝ
  difficulty : Option ℝ
  due : Option ℝ
  last_reviewed : Option ℝ
  review_count : ℕ
  lapses : ℕ

/-- Scheduler configuration (`fsrs_config.json` / `DEFAULT_CONFIG`). -/
structure Config where
  weights : List ℝ
  target_retrievability : ℝ
  maximum_interval_days : ℝ

/-- `DEFAULT_CONFIG` from the source (version field omitted: it is never
read by the engine). -/
def DEFAULT_CONFIG : Config :=
  { weights := [0.4, 0.6, 2.4, 5.8, 4.93, 0.94, 0.86, 0.01, 1.49, 0.14,
                0.94, 2.18, 0.05, 0.34, 1.26]
  , target_retrievability := 0.9
  , maximum_interval_days := 365 }

/-- `loadConfig()`: reads `fsrs_config.json`, creating and returning
`DEFAULT_CONFIG` when the file is absent.  The file contents are the
explicit argument. -/
def loadConfig (fileConfig : Option Config) : Config :=
  fileConfig.getD DEFAULT_CONFIG

/-- `retrievability(stability, elapsedDays)`:
`R(t) = (1 + t/(9*S))^(-1)`, and `0` when stability is null or `≤ 0`.
`Math.pow(x, -1)` is the reciprocal. -/
def retrievability (stability : Option ℝ) (elapsedDays : ℝ) : ℝ :=
  match stability with
  | none => 0
  | some s => if s ≤ 0 then 0 else (1 + elapsedDays / (9 * s))⁻¹

/-- `nextInterval(stability, targetRetrievability)`:
`I = 9 * S * (1/R_target - 1)`, and `1` when stability is null or `≤ 0`. -/
def nextInterval (stability : Option ℝ) (targetRetrievability : ℝ) : ℝ :=
  match stability with
  | none => 1
  | some s => if s ≤ 0 then 1 else 9 * s * (1 / targetRetrievability - 1)

/-- `clamp(value, min, max) = Math.max(min, Math.min(max, value))`. -/
def clamp (value lo hi : ℝ) : ℝ :=
  max lo (min hi value)

/-- `initialStability(grade, weights) = weights[grade - 1]`. -/
def initialStability (grade : ℕ) (weights : List ℝ) : ℝ :=
  weights.getD (grade - 1) 0

/-- `initialDifficulty(grade, weights) = clamp(w4 - w5*(grade-3), 1, 10)`. -/
def initialDifficulty (grade : ℕ) (weights : List ℝ) : ℝ :=
  let d0 := weights.getD 4 0 - weights.getD 5 0 * ((grade : ℝ) - 3)
  clamp d0 1 10

/-- `updateDifficulty(currentDifficulty, grade, weights)`: difficulty step
`-w6*(grade-3)` followed by mean reversion toward `weights[4]` with
strength `w7`, clamped to `[1,10]`. -/
def updateDifficulty (currentDifficulty : ℝ) (grade : ℕ) (weights : List ℝ) : ℝ :=
  let w6 := weights.getD 6 0
  let w7 := weights.getD 7 0
  let meanDifficulty := weights.getD 4 0
  let delta := -w6 * ((grade : ℝ) - 3)
  let newD := currentDifficulty + delta
  let revertedD := newD + w7 * (meanDifficulty - newD)
  clamp revertedD 1 10

/-- `updateStabilitySuccess(stability, difficulty, retrievability, grade, weights)`.
The source computes `hardPenalty`/`easyBonus` from the optional weights 15
and 16 (`weights[15] || 1.0`: JS yields `1.0` for a missing or zero entry,
modelled via `getD 15 0` followed by the zero test) but never uses them:
the returned factor is the "simplified formula without optional weights". -/
def updateStabilitySuccess (stability difficulty retrievability : ℝ)
    (grade : ℕ) (weights : List ℝ) : ℝ :=
  let w8 := weights.getD 8 0
  let w9 := weights.getD 9 0
  let w10 := weights.getD 10 0
  let _hardPenalty : ℝ :=
    if grade = 2 then (if weights.getD 15 0 = 0 then 1.0 else weights.getD 15 0) else 1.0
  let _easyBonus : ℝ :=
    if grade = 4 then (if weights.getD 16 0 = 0 then 1.0 else weights.getD 16 0) else 1.0
  let factor := Real.exp w8 *
    (11 - difficulty) *
    stability ^ (-w9) *
    (Real.exp (w10 * (1 - retrievability)) - 1)
  stability * (1 + factor)

/-- `updateStabilityFailure(stability, difficulty, retrievability, weights)`:
`min(w11 * D^(-w12) * ((S+1)^w13 - 1) * exp(w14*(1-R)), S)`. -/
def updateStabilityFailure (stability difficulty retrievability : ℝ)
    (weights : List ℝ) : ℝ :=
  let w11 := weights.getD 11 0
  let w12 := weights.getD 12 0
  let w13 := weights.getD 13 0
  let w14 := weights.getD 14 0
  let newStability := w11 *
    difficulty ^ (-w12) *
    ((stability + 1) ^ w13 - 1) *
    Real.exp (w14 * (1 - retrievability))
  min newStability stability

/-- `createDefaultFsrsState()`: the `new` state with all nullable fields
null and both counters zero. -/
def createDefaultFsrsState : FsrsState :=
  { state := StateTag.new
  , stability := none
  , difficulty := none
  , due := none
  , last_reviewed := none
  , review_count := 0
  , lapses := 0 }

/-- Body of `processReview` once the configuration has been resolved
(the source resolves `config = loadConfig()` when called with a null
config, and reads `now = new Date()`; both are explicit arguments here).

The guard `currentFsrs.stability ? retrievability(...) : 0` of the source
coincides with `retrievability currentFsrs.stability elapsedDays`, since
`retrievability` already returns `0` for a null, zero (JS-falsy) or
negative stability. -/
def processReviewWith (currentFsrs : FsrsState) (grade : ℕ) (config : Config)
    (now : ℝ) : FsrsState :=
  let weights := config.weights
  let targetR := config.target_retrievability
  let maxInterval := config.maximum_interval_days
  let elapsedDays : ℝ :=
    match currentFsrs.last_reviewed with
    | some lastReview => (now - lastReview) / (1000 * 60 * 60 * 24)
    | none => 0
  let currentR := retrievability currentFsrs.stability elapsedDays
  let branched : FsrsState :=
    if currentFsrs.state = StateTag.new then
      { currentFsrs with
          stability := some (initialStability grade weights)
        , difficulty := some (initialDifficulty grade weights)
        , state := if grade = 1 then StateTag.learning else StateTag.review
        , lapses := if grade = 1 then 1 else currentFsrs.lapses }
    else
      if grade = 1 then
        { currentFsrs with
            difficulty := some (updateDifficulty (currentFsrs.difficulty.getD 0) grade weights)
          , stability := some (updateStabilityFailure (currentFsrs.stability.getD 0)
              (currentFsrs.difficulty.getD 0) currentR weights)
          , lapses := currentFsrs.lapses + 1
          , state := StateTag.relearning }
      else
        { currentFsrs with
            difficulty := some (updateDifficulty (currentFsrs.difficulty.getD 0) grade weights)
          , stability := some (updateStabilitySuccess (currentFsrs.stability.getD 0)
              (currentFsrs.difficulty.getD 0) currentR grade weights)
          , state := StateTag.review }
  let interval := max (min (nextInterval branched.stability targetR) maxInterval) 1
  { branched with
      due := some (now + interval * (1000 * 60 * 60 * 24))
    , last_reviewed := some now
    , review_count := currentFsrs.review_count + 1 }

/-- `processReview(currentFsrs, grade, config = null)`.  A null config is
replaced by `loadConfig()`; the config-file contents and the clock reading
are the explicit arguments `fileConfig` and `now`. -/
def processReview (currentFsrs : FsrsState) (grade : ℕ) (config : Option Config)
    (fileConfig : Option Config) (now : ℝ) : FsrsState :=
  processReviewWith currentFsrs grade (config.getD (loadConfig fileConfig)) now

/-- Result object of `calculatePriority`; the optional JS keys
`daysOverdue` / `daysUntilDue` are `Option ℝ` (absent = `none`). -/
structure PriorityResult where
  priority : ℝ
  isOverdue : Bool
  retrievability : Option ℝ
  daysOverdue : Option ℝ
  daysUntilDue : Option ℝ
deriving DecidableEq

/-- `calculatePriority(topic)`, as a function of the topic's `fsrs` field
(`none` models a topic with no `fsrs` object) and the clock reading `now`. -/
def calculatePriority (fsrs : Option FsrsState) (now : ℝ) : PriorityResult :=
  match fsrs with
  | none =>
      { priority := 0, isOverdue := false, retrievability := some 1
      , daysOverdue := none, daysUntilDue := none }
  | some f =>
    if f.state = StateTag.new then
      { priority := 50, isOverdue := false, retrievability := none
      , daysOverdue := none, daysUntilDue := none }
    else
      match f.due with
      | none =>
          { priority := 50, isOverdue := false, retrievability := none
          , daysOverdue := none, daysUntilDue := none }
      | some dueDate =>
        let daysUntilDue := (dueDate - now) / (1000 * 60 * 60 * 24)
        let elapsedDays : ℝ :=
          match f.last_reviewed with
          | some lastReview => (now - lastReview) / (1000 * 60 * 60 * 24)
          | none => 0
        let currentR := retrievability f.stability elapsedDays
        if daysUntilDue < 0 then
          { priority := 100 + (1 - currentR) * 100, isOverdue := true
          , retrievability := some currentR
          , daysOverdue := some (-daysUntilDue), daysUntilDue := none }
        else
          { priority := max 0 (40 - daysUntilDue * 10), isOverdue := false
          , retrievability := some currentR
          , daysOverdue := none, daysUntilDue := some daysUntilDue }

/-- The `log_review_outcome` tool handler of `index.js`, restricted to its
scheduling-relevant behaviour: the grade guard `![1,2,3,4].includes(grade)`
returns an error (the topic is left untouched; `updateTopic` is never
called), otherwise the handler loads the config and applies `processReview`
to the topic's fsrs state (`topic.fsrs || createDefaultFsrsState()`). -/
def log_review_outcome (fsrs : Option FsrsState) (grade : ℕ)
    (fileConfig : Option Config) (now : ℝ) : Except String FsrsState :=
  if ¬ (grade = 1 ∨ grade = 2 ∨ grade = 3 ∨ grade = 4) then
    Except.error
      s!"Error: Invalid grade {grade}. Must be 1 (Again), 2 (Hard), 3 (Good), or 4 (Easy)."
  else
    let config := loadConfig fileConfig
    Except.ok (processReviewWith (fsrs.getD createDefaultFsrsState) grade config now)

/-- Scheduling states reachable from the initial `new` state by any
sequence of processed reviews with grades in `{1,2,3,4}` (each step with
an arbitrary resolved configuration and clock reading). -/
inductive Reachable : FsrsState → Prop where
  | init : Reachable createDefaultFsrsState
  | step {s : FsrsState} {grade : ℕ} (cfg : Config) (now : ℝ)
      (hs : Reachable s) (hg : grade = 1 ∨ grade = 2 ∨ grade = 3 ∨ grade = 4) :
      Reachable (processReviewWith s grade cfg now)

/-- A resolved configuration used as one possible content of
`fsrs_config.json` (weights index 2 is the grade-3 initial stability). -/
def cfgA : Config :=
  { weights := [0, 0, 1], target_retrievability := 1 / 2
  , maximum_interval_days := 365 }

/-- A second possible content of `fsrs_config.json`, differing from `cfgA`
only in the target retrievability. -/
def cfgB : Config :=
  { weights := [0, 0, 1], target_retrievability := 9 / 10
  , maximum_interval_days := 365 }

/-- Claim C4: `nextInterval` is the inverse of `retrievability`: for every
stability `S > 0` and target retrievability in `(0,1)`, evaluating
`retrievability` at the computed interval recovers the target exactly
(exact real arithmetic). -/
theorem nextInterval_retrievability_roundtrip (S targetR : ℝ) (hS : 0 < S)
    (h0 : 0 < targetR) (h1 : targetR < 1) :
    retrievability (some S) (nextInterval (some S) targetR) = targetR := by
  have hS' : ¬ S ≤ 0 := not_le.mpr hS
  simp only [retrievability, nextInterval, if_neg hS']
  have h9 : (9 : ℝ) * S ≠ 0 := by positivity
  have ht : targetR ≠ 0 := ne_of_gt h0
  have key : 1 + 9 * S * (1 / targetR - 1) / (9 * S) = 1 / targetR := by
    field_simp
    ring
  rw [key, one_div, inv_inv]

/-- Witness for C4 at `S = 1`, `targetR = 1/2`. -/
theorem nextInterval_retrievability_roundtrip_witness :
    retrievability (some 1) (nextInterval (some 1) (1 / 2)) = 1 / 2 :=
  nextInterval_retrievability_roundtrip 1 (1 / 2) (by norm_num) (by norm_num)
    (by norm_num)

/-- Claim C5: `updateStabilitySuccess` returns
`S * (1 + exp(w8) * (11 - D) * S^(-w9) * (exp(w10 * (1 - R)) - 1))`, and its
result only depends on weights 8, 9 and 10: any two weight vectors agreeing
there (in particular, vectors differing only at the optional indices 15 and
16) give the same result for every grade — the `hardPenalty` / `easyBonus`
multipliers are never applied. -/
theorem updateStabilitySuccess_formula (S D R : ℝ) (grade : ℕ) (w w' : List ℝ)
    (h8 : w.getD 8 0 = w'.getD 8 0) (h9 : w.getD 9 0 = w'.getD 9 0)
    (h10 : w.getD 10 0 = w'.getD 10 0) :
    updateStabilitySuccess S D R grade w =
      S * (1 + Real.exp (w.getD 8 0) * (11 - D) * S ^ (-(w.getD 9 0)) *
        (Real.exp (w.getD 10 0 * (1 - R)) - 1)) ∧
    updateStabilitySuccess S D R grade w = updateStabilitySuccess S D R grade w' := by
  refine ⟨rfl, ?_⟩
  simp only [updateStabilitySuccess]
  rw [h8, h9, h10]

/-- Witness for C5: two weight vectors agreeing at indices 8–10 but with
weights 15/16 present (and nonzero) in one and absent in the other give the
same hard-grade result. -/
theorem updateStabilitySuccess_formula_witness :
    updateStabilitySuccess 1 1 1 2 [0, 0, 0, 0, 0, 0, 0, 0, 2, 3, 4, 0, 0, 0, 0, 9, 9] =
      updateStabilitySuccess 1 1 1 2 [0, 0, 0, 0, 0, 0, 0, 0, 2, 3, 4] :=
  (updateStabilitySuccess_formula 1 1 1 2 _ _ rfl rfl rfl).2

/-- Claim C6: a lapse never increases stability: for every stability
`S > 0`, difficulty in `[1,10]`, retrievability in `[0,1]` and weights
vector, `updateStabilityFailure` returns at most `S`. -/
theorem updateStabilityFailure_le_stability (S D R : ℝ) (w : List ℝ)
    (hS : 0 < S) (hD1 : 1 ≤ D) (hD10 : D ≤ 10) (hR0 : 0 ≤ R) (hR1 : R ≤ 1) :
    updateStabilityFailure S D R w ≤ S := by
  simp only [updateStabilityFailure]
  exact min_le_right _ _

/-- Witness for C6 at `S = D = R = 1` and the empty weights vector. -/
theorem updateStabilityFailure_le_stability_witness :
    updateStabilityFailure 1 1 1 [] ≤ 1 :=
  updateStabilityFailure_le_stability 1 1 1 [] (by norm_num) le_rfl (by norm_num)
    (by norm_num) le_rfl

/-- Claim C7: for every configuration with positive
`maximum_interval_days`, the state returned by a processed review has
`last_reviewed = now`, `review_count` incremented by exactly one, and
`due = now + interval` days (in epoch milliseconds) where `interval` is
`nextInterval` of the new stability clamped to `[1, maximum_interval_days]`
(i.e. `max (min raw maxDays) 1`, exactly as the source clamps). -/
theorem processReview_schedules (fsrs : FsrsState) (grade : ℕ) (config : Config)
    (now : ℝ) (hM : 0 < config.maximum_interval_days) :
    (processReviewWith fsrs grade config now).last_reviewed = some now ∧
    (processReviewWith fsrs grade config now).review_count = fsrs.review_count + 1 ∧
    (processReviewWith fsrs grade config now).due =
      some (now + max (min (nextInterval (processReviewWith fsrs grade config now).stability
        config.target_retrievability) config.maximum_interval_days) 1 *
          (1000 * 60 * 60 * 24)) :=
  ⟨rfl, rfl, rfl⟩

/-- Witness for C7: a first review with grade 3 under the default
configuration at time 0. -/
theorem processReview_schedules_witness :
    (processReviewWith createDefaultFsrsState 3 DEFAULT_CONFIG 0).last_reviewed = some 0 ∧
    (processReviewWith createDefaultFsrsState 3 DEFAULT_CONFIG 0).review_count =
      createDefaultFsrsState.review_count + 1 ∧
    (processReviewWith createDefaultFsrsState 3 DEFAULT_CONFIG 0).due =
      some (0 + max (min (nextInterval
        (processReviewWith createDefaultFsrsState 3 DEFAULT_CONFIG 0).stability
        DEFAULT_CONFIG.target_retrievability) DEFAULT_CONFIG.maximum_interval_days) 1 *
          (1000 * 60 * 60 * 24)) :=
  processReview_schedules createDefaultFsrsState 3 DEFAULT_CONFIG 0
    (by norm_num [DEFAULT_CONFIG])

/-- Claim C8: a review processed from a `new`-tagged state sets
`stability = initialStability(grade, weights)` and
`difficulty = initialDifficulty(grade, weights)`; grade 1 transitions to
`learning` with `lapses = 1`, and grades 2–4 transition to `review` leaving
`lapses` unchanged (so it stays 0 when it was 0). -/
theorem processReview_from_new (fsrs : FsrsState) (grade : ℕ) (config : Config)
    (now : ℝ) (hnew : fsrs.state = StateTag.new) :
    (processReviewWith fsrs grade config now).stability =
      some (initialStability grade config.weights) ∧
    (processReviewWith fsrs grade config now).difficulty =
      some (initialDifficulty grade config.weights) ∧
    (grade = 1 →
      (processReviewWith fsrs grade config now).state = StateTag.learning ∧
      (processReviewWith fsrs grade config now).lapses = 1) ∧
    ((grade = 2 ∨ grade = 3 ∨ grade = 4) →
      (processReviewWith fsrs grade config now).state = StateTag.review ∧
      (processReviewWith fsrs grade config now).lapses = fsrs.lapses) := by
  by_cases hg : grade = 1
  · subst hg
    simp [processReviewWith, hnew]
  · simp [processReviewWith, hnew, hg]

/-- Witness for C8: first review with grade 3 under the default
configuration. -/
theorem processReview_from_new_witness :
    (processReviewWith createDefaultFsrsState 3 DEFAULT_CONFIG 0).stability =
      some (initialStability 3 DEFAULT_CONFIG.weights) ∧
    (processReviewWith createDefaultFsrsState 3 DEFAULT_CONFIG 0).difficulty =
      some (initialDifficulty 3 DEFAULT_CONFIG.weights) ∧
    ((3 : ℕ) = 1 →
      (processReviewWith createDefaultFsrsState 3 DEFAULT_CONFIG 0).state = StateTag.learning ∧
      (processReviewWith createDefaultFsrsState 3 DEFAULT_CONFIG 0).lapses = 1) ∧
    (((3 : ℕ) = 2 ∨ (3 : ℕ) = 3 ∨ (3 : ℕ) = 4) →
      (processReviewWith createDefaultFsrsState 3 DEFAULT_CONFIG 0).state = StateTag.review ∧
      (processReviewWith createDefaultFsrsState 3 DEFAULT_CONFIG 0).lapses =
        createDefaultFsrsState.lapses) :=
  processReview_from_new createDefaultFsrsState 3 DEFAULT_CONFIG 0 rfl

/-- Claim C9: for every grade outside `{1,2,3,4}`, the `log_review_outcome`
boundary handler rejects the request with the invalid-grade error before
the engine is invoked, and no updated FSRS state is produced (the topic is
left unchanged; the grade is never coerced into a state update). -/
theorem log_review_outcome_rejects_bad_grade (fsrs : Option FsrsState) (grade : ℕ)
    (fileConfig : Option Config) (now : ℝ)
    (hg : ¬ (grade = 1 ∨ grade = 2 ∨ grade = 3 ∨ grade = 4)) :
    log_review_outcome fsrs grade fileConfig now =
      Except.error
        s!"Error: Invalid grade {grade}. Must be 1 (Again), 2 (Hard), 3 (Good), or 4 (Easy)." ∧
    ∀ s' : FsrsState, log_review_outcome fsrs grade fileConfig now ≠ Except.ok s' := by
  constructor
  · simp only [log_review_outcome, if_pos hg]
  · intro s' h
    rw [log_review_outcome, if_pos hg] at h
    exact Except.noConfusion h

/-- Witness for C9 at grade 5. -/
theorem log_review_outcome_rejects_bad_grade_witness :
    log_review_outcome none 5 none 0 =
      Except.error
        s!"Error: Invalid grade {(5 : ℕ)}. Must be 1 (Again), 2 (Hard), 3 (Good), or 4 (Easy)." ∧
    ∀ s' : FsrsState, log_review_outcome none 5 none 0 ≠ Except.ok s' :=
  log_review_outcome_rejects_bad_grade none 5 none 0 (by decide)

/-- Claim C10: for fixed stability `S > 0`, retrievability is `1` at zero
elapsed days, lies in `(0, 1]` for every non-negative elapsed time, and is
strictly decreasing in elapsed time on `[0, ∞)`. -/
theorem retrievability_decay (S : ℝ) (hS : 0 < S) :
    retrievability (some S) 0 = 1 ∧
    (∀ t : ℝ, 0 ≤ t → 0 < retrievability (some S) t ∧ retrievability (some S) t ≤ 1) ∧
    (∀ t₁ t₂ : ℝ, 0 ≤ t₁ → t₁ < t₂ →
      retrievability (some S) t₂ < retrievability (some S) t₁) := by
  have hS' : ¬ S ≤ 0 := not_le.mpr hS
  have h9S : (0 : ℝ) < 9 * S := by positivity
  refine ⟨?_, ?_, ?_⟩
  · simp [retrievability, hS']
  · intro t ht
    simp only [retrievability, if_neg hS']
    have hpos : 0 < 1 + t / (9 * S) := by positivity
    refine ⟨inv_pos.mpr hpos, ?_⟩
    have h1le : 1 ≤ 1 + t / (9 * S) := le_add_of_nonneg_right (by positivity)
    exact inv_le_one_of_one_le₀ h1le
  · intro t₁ t₂ ht₁ hlt
    simp only [retrievability, if_neg hS']
    have h1 : 0 < 1 + t₁ / (9 * S) := by positivity
    have h2 : 1 + t₁ / (9 * S) < 1 + t₂ / (9 * S) := by gcongr
    gcongr

/-- Witness for C10 at `S = 1`. -/
theorem retrievability_decay_witness :
    retrievability (some 1) 0 = 1 ∧
    (∀ t : ℝ, 0 ≤ t → 0 < retrievability (some 1) t ∧ retrievability (some 1) t ≤ 1) ∧
    (∀ t₁ t₂ : ℝ, 0 ≤ t₁ → t₁ < t₂ →
      retrievability (some 1) t₂ < retrievability (some 1) t₁) :=
  retrievability_decay 1 (by norm_num)

/-- The clamp to `[1,10]` used by both difficulty formulas lands in
`[1,10]`. -/
theorem clamp_one_ten_mem (v : ℝ) : 1 ≤ clamp v 1 10 ∧ clamp v 1 10 ≤ 10 :=
  ⟨le_max_left _ _, max_le (by norm_num) (min_le_left _ _)⟩

/-- A single processed review always produces non-null stability and a
non-null difficulty lying in `[1,10]`, and never a `new` tag. -/
theorem processReviewWith_establishes (s : FsrsState) (grade : ℕ) (cfg : Config)
    (now : ℝ) :
    (∃ st, (processReviewWith s grade cfg now).stability = some st) ∧
    (∃ d, (processReviewWith s grade cfg now).difficulty = some d ∧ 1 ≤ d ∧ d ≤ 10) := by
  by_cases h1 : s.state = StateTag.new <;> by_cases h2 : grade = 1 <;>
    simp only [processReviewWith, h1, h2, if_pos, if_neg, if_true, if_false,
      reduceIte] <;>
    first
      | exact ⟨⟨_, rfl⟩, _, rfl, clamp_one_ten_mem _⟩

/-- Claim C3: every scheduling state reachable from the initial `new`
state by processed reviews with grades in `{1,2,3,4}` satisfies the
invariant: once the tag is not `new`, stability and difficulty are
non-null and difficulty lies in `[1,10]`. -/
theorem reachable_invariant (s : FsrsState) (h : Reachable s)
    (hs : s.state ≠ StateTag.new) :
    (∃ st, s.stability = some st) ∧
    (∃ d, s.difficulty = some d ∧ 1 ≤ d ∧ d ≤ 10) := by
  cases h with
  | init => exact absurd rfl hs
  | step cfg now hs' hg => exact processReviewWith_establishes _ _ _ _

/-- Witness for C3: the state after one grade-3 review of a fresh topic is
reachable, non-`new`, and satisfies the invariant. -/
theorem reachable_invariant_witness :
    (∃ st, (processReviewWith createDefaultFsrsState 3 DEFAULT_CONFIG 0).stability =
      some st) ∧
    (∃ d, (processReviewWith createDefaultFsrsState 3 DEFAULT_CONFIG 0).difficulty =
      some d ∧ 1 ≤ d ∧ d ≤ 10) :=
  reachable_invariant _ (Reachable.step DEFAULT_CONFIG 0 Reachable.init (by decide))
    (by simp [processReviewWith, createDefaultFsrsState])

/-- Counterexample to claim C1: the source's `processReview(state, grade,
config)` has no caller-supplied `now` (it reads the global clock) and,
when called without a config, reads `fsrs_config.json`: two calls that
agree on every explicit argument (state, grade, null config) and on the
clock reading return different states when the config file differs, so
the result is not a pure function of the claimed explicit arguments. -/
theorem processReview_depends_on_config_file :
    processReview createDefaultFsrsState 3 none (some cfgA) 0 ≠
      processReview createDefaultFsrsState 3 none (some cfgB) 0 := by
  intro h
  have hdue := congrArg FsrsState.due h
  simp only [processReview, processReviewWith, loadConfig, Option.getD,
    createDefaultFsrsState, cfgA, cfgB, nextInterval, initialStability,
    List.getD, reduceIte] at hdue
  norm_num at hdue

/-- Claim C1 (amended): once the configuration is actually supplied
(non-null) and the ambient clock reading is made an explicit argument, the
engine is deterministic: the result depends only on (state, grade, config,
clock time), and in particular not on the config-file contents. -/
theorem processReview_pure_with_config (s : FsrsState) (grade : ℕ) (c : Config)
    (fc fc' : Option Config) (now : ℝ) :
    processReview s grade (some c) fc now = processReview s grade (some c) fc' now :=
  rfl

/-- Counterexample to claim C2: a topic whose scheduling state is absent
does not get the `{priority: 50, isOverdue: false, retrievability: null}`
result — the source returns `{priority: 0, isOverdue: false,
retrievability: 1}` for a missing `fsrs` object. -/
theorem calculatePriority_absent_ne_fifty :
    calculatePriority none 0 ≠
      { priority := 50, isOverdue := false, retrievability := none
      , daysOverdue := none, daysUntilDue := none } := by
  intro h
  have hpri : (0 : ℝ) = 50 := congrArg PriorityResult.priority h
  norm_num at hpri

/-- Claim C2 (amended): for every `now`, a topic whose state tag is `new`
or whose due timestamp is null gets exactly
`{priority: 50, isOverdue: false, retrievability: null}`, while a topic
with no scheduling state at all gets
`{priority: 0, isOverdue: false, retrievability: 1}`. -/
theorem calculatePriority_new_or_unscheduled (now : ℝ) (f : FsrsState)
    (h : f.state = StateTag.new ∨ f.due = none) :
    calculatePriority (some f) now =
      { priority := 50, isOverdue := false, retrievability := none
      , daysOverdue := none, daysUntilDue := none } ∧
    calculatePriority none now =
      { priority := 0, isOverdue := false, retrievability := some 1
      , daysOverdue := none, daysUntilDue := none } := by
  refine ⟨?_, rfl⟩
  by_cases hnew : f.state = StateTag.new
  · simp [calculatePriority, hnew]
  · rcases h with h | h
    · exact absurd h hnew
    · simp [calculatePriority, hnew, h]

/-- Witness for the amended C2 at the fresh `new` state and `now = 0`. -/
theorem calculatePriority_new_or_unscheduled_witness :
    calculatePriority (some createDefaultFsrsState) 0 =
      { priority := 50, isOverdue := false, retrievability := none
      , daysOverdue := none, daysUntilDue := none } ∧
    calculatePriority none 0 =
      { priority := 0, isOverdue := false, retrievability := some 1
      , daysOverdue := none, daysUntilDue := none } :=
  calculatePriority_new_or_unscheduled 0 createDefaultFsrsState (Or.inl rfl)

end
